import Mathlib

/-!
Verification of the state-synchronization engine of `scripts/sync/state_manager.py`.

The snapshot state is a JSON object with keys `posted_<category>` (array of
string ids), `last_<singular>_posted` (object-or-null with `id` and
`timestamp`), `cycle_count` (object mapping category to integer) and
`last_updated` (ISO-8601 string).  Keys may be absent in legacy snapshots, so
every field of the shallow embedding is wrapped in `Option`: `none` models an
absent dictionary key, mirroring Python's `dict.get` semantics at each call
site.  The configured glossary categories (the keys of
`CATEGORY_CONFIG_PLURAL`, in insertion order) are `spells`, `potions`,
`creatures`, `objects`, `locations`, `organizations`, `concepts`,
`characters`.
-/

/-- The eight glossary categories of `CATEGORY_CONFIG_PLURAL`. -/
inductive Cat where
  | spells
  | potions
  | creatures
  | objects
  | locations
  | organizations
  | concepts
  | characters
  deriving DecidableEq, Repr

/-- `CATEGORY_CONFIG_PLURAL.keys()` in Python dict insertion order. -/
def catList : List Cat :=
  [Cat.spells, Cat.potions, Cat.creatures, Cat.objects,
   Cat.locations, Cat.organizations, Cat.concepts, Cat.characters]

theorem mem_catList (c : Cat) : c ∈ catList := by
  cases c <;> decide

/-- A `last_<singular>_posted` record: `{"id": ..., "timestamp": ...}`. -/
structure LastPosted where
  id : String
  timestamp : String
  deriving DecidableEq, Repr

/-- A raw snapshot state dictionary.  Outer `Option` = key presence:
`posted c = none` models the key `posted_<c>` being absent,
`lastPosted c = some none` models the key present with JSON `null`,
`cycleCount = none` models the whole `cycle_count` dict being absent. -/
@[ext] structure RawState where
  posted : Cat → Option (List String)
  lastPosted : Cat → Option (Option LastPosted)
  cycleCount : Option (Cat → Option Int)
  lastUpdated : Option String

/-- `state.get(posted_key, [])`. -/
def postedGet (s : RawState) (c : Cat) : List String :=
  (s.posted c).getD []

/-- `state.get('cycle_count', {}).get(category, 0)`. -/
def cycleGet (s : RawState) (c : Cat) : Int :=
  match s.cycleCount with
  | some cc => (cc c).getD 0
  | none => 0

/-- `state.get(last_posted_key)` (default `None`). -/
def lastPostedGet (s : RawState) (c : Cat) : Option LastPosted :=
  (s.lastPosted c).getD none

-- Configuration constants from `config/settings.py`.

def GIST_API_MAX_RETRIES : Nat := 3

def GIST_API_RETRY_DELAY : Nat := 1

def GIST_API_RETRY_BACKOFF : Nat := 2

def MAX_CYCLE_COUNT : Int := 1000

def TIMESTAMP_PAST_TOLERANCE_YEARS : Nat := 1

def TIMESTAMP_FUTURE_TOLERANCE_MINUTES : Nat := 5

/-- `StateManager._create_initial_state`; `now` stands for
`datetime.now(timezone.utc).isoformat()`. -/
def create_initial_state (now : String) : RawState :=
  { posted := fun _ => some []
    lastPosted := fun _ => some none
    cycleCount := some fun _ => some 0
    lastUpdated := some now }

/-- `StateManager._migrate_state`: for every category, a missing
`posted_<c>` key becomes `[]`, a missing `last_<c>_posted` key becomes
`null`; a missing `cycle_count` dict becomes `{}` and every missing
category entry in it becomes `0`.  Present values are left untouched. -/
def migrate_state (s : RawState) : RawState :=
  { posted := fun c => some ((s.posted c).getD [])
    lastPosted := fun c => some ((s.lastPosted c).getD none)
    cycleCount := some fun c => some ((((s.cycleCount).getD fun _ => none) c).getD 0)
    lastUpdated := s.lastUpdated }

/-- `list(set1 - set2)` restricted to what the program observes of it
(membership and emptiness; a Python set's iteration order is arbitrary). -/
def onlyIn (l1 l2 : List String) : List String :=
  l1.filter fun x => decide (x ∉ l2)

/-- `list(set1 | set2)`, again up to the arbitrary iteration order of a
Python set. -/
def setUnion (l1 l2 : List String) : List String :=
  (l1 ++ l2).dedup

/-- The truthiness test `if ts1 and ts2` on two `state.get('last_updated')`
values: both keys present and both strings non-empty. -/
def tsMismatch (s1 s2 : RawState) : Bool :=
  match s1.lastUpdated, s2.lastUpdated with
  | some a, some b => a != "" && b != "" && a != b
  | _, _ => false

/-- The result dictionary of `StateManager.compare_states`. -/
structure ComparisonResult where
  has_conflict : Bool
  timestamp_diff : Option (String × String)
  posted_diff : Cat → Option (List String × List String)
  cycle_diff : Cat → Option (Int × Int)
  is_identical : Bool

/-- `StateManager.compare_states`: per-category two-way set differences of
the posted ids, cycle-count comparison with default `0`, and a top-level
timestamp comparison guarded by `if ts1 and ts2`.  `is_identical` starts
`True` and is cleared by any recorded difference; `has_conflict` is set
when some category has ids only in state1 and ids only in state2. -/
def compare_states (s1 s2 : RawState) : ComparisonResult :=
  let pd : Cat → List String × List String := fun c =>
    (onlyIn (postedGet s1 c) (postedGet s2 c),
     onlyIn (postedGet s2 c) (postedGet s1 c))
  let postedDiffers : Bool := catList.any fun c =>
    !(pd c).1.isEmpty || !(pd c).2.isEmpty
  let conflict : Bool := catList.any fun c =>
    !(pd c).1.isEmpty && !(pd c).2.isEmpty
  let cycleDiffers : Bool := catList.any fun c =>
    cycleGet s1 c != cycleGet s2 c
  { has_conflict := conflict
    timestamp_diff :=
      if tsMismatch s1 s2 then
        some ((s1.lastUpdated).getD "", (s2.lastUpdated).getD "")
      else none
    posted_diff := fun c =>
      if (pd c).1.isEmpty && (pd c).2.isEmpty then none else some (pd c)
    cycle_diff := fun c =>
      if cycleGet s1 c != cycleGet s2 c then
        some (cycleGet s1 c, cycleGet s2 c)
      else none
    is_identical := !(tsMismatch s1 s2) && !postedDiffers && !cycleDiffers }

/-- Lexicographic comparison of code-point lists, as Python's `<` compares
strings. -/
def charListLt : List Char → List Char → Bool
  | _, [] => false
  | [], _ :: _ => true
  | x :: xs, y :: ys =>
    if x.toNat < y.toNat then true
    else if y.toNat < x.toNat then false
    else charListLt xs ys

/-- Python's `<` on strings (lexicographic by Unicode code point). -/
def pyStrLt (a b : String) : Bool := charListLt a.data b.data

/-- Python `max(a, b)` on strings: `a if a >= b else b`. -/
def pyMaxStr (a b : String) : String :=
  if pyStrLt a b then b else a

/-- The values held by the local variables `ts1`/`ts2` of
`StateManager.merge_states` after the `last_*_posted` loop has run: they
are initialized from the two `last_updated` values, but the loop body
reassigns them to `last1['timestamp']`/`last2['timestamp']` for every
category where both sides carry a truthy `last_<c>_posted` record. -/
def leakedTs (s1 s2 : RawState) : String × String :=
  catList.foldl
    (fun p c =>
      match lastPostedGet s1 c, lastPostedGet s2 c with
      | some la, some lb => (la.timestamp, lb.timestamp)
      | _, _ => p)
    ((s1.lastUpdated).getD "", (s2.lastUpdated).getD "")

/-- `StateManager.merge_states`.  Starts from `_create_initial_state()`
(parameter `now`), overwrites every `posted_<c>` with the set union,
every `cycle_count[c]` with the max, and each `last_<c>_posted` with the
side carrying the newer timestamp (ties favor state1).  The final
`last_updated` under `prefer_newer` reads the leaked `ts1`/`ts2`
variables (see `leakedTs`); with `prefer_newer = False` it is `now`. -/
def merge_states (s1 s2 : RawState) (prefer_newer : Bool) (now : String) : RawState :=
  let t := leakedTs s1 s2
  { posted := fun c => some (setUnion (postedGet s1 c) (postedGet s2 c))
    lastPosted := fun c =>
      match lastPostedGet s1 c, lastPostedGet s2 c with
      | some la, some lb =>
          some (some (if pyStrLt la.timestamp lb.timestamp then lb else la))
      | some la, none => some (some la)
      | none, some lb => some (some lb)
      | none, none => some none
    cycleCount := some fun c => some (max (cycleGet s1 c) (cycleGet s2 c))
    lastUpdated := some
      (if prefer_newer then
        if t.1 ≠ "" ∧ t.2 ≠ "" then pyMaxStr t.1 t.2
        else if t.1 ≠ "" then t.1 else t.2
      else now) }

/-- A catalog item (`all_items` entries are dicts with a unique `'id'`). -/
structure Item where
  id : String
  deriving DecidableEq, Repr

/-- The state produced by the cycle-reset branch of
`StateManager.get_available_items`: `self.state[posted_key] = []` and
`self.state['cycle_count'][category_plural] += 1` (with `cc` the present
`cycle_count` dict and `n` the present entry for `c`). -/
def cycleResetState (s : RawState) (c : Cat) (cc : Cat → Option Int) (n : Int) : RawState :=
  { s with
    posted := fun c2 => if c2 = c then some [] else s.posted c2
    cycleCount := some fun c2 => if c2 = c then some (n + 1) else cc c2 }

/-- `StateManager.get_available_items`.  Computes
`available_ids = all_ids - posted_ids`; when empty it resets the posted
list, increments the category's cycle count (a `KeyError` — modelled as
`none` — if `cycle_count` or the category entry is absent) and sets
`available_ids = all_ids`.  Returns the new state together with
`[item for item in all_items if item['id'] in available_ids]`. -/
def get_available_items (s : RawState) (c : Cat) (allItems : List Item) :
    Option (RawState × List Item) :=
  let postedIds := postedGet s c
  let allIds := allItems.map Item.id
  let availableIds := onlyIn allIds postedIds
  if availableIds.isEmpty then
    match s.cycleCount with
    | none => none
    | some cc =>
      match cc c with
      | none => none
      | some n =>
        some (cycleResetState s c cc n,
              allItems.filter fun it => decide (it.id ∈ allIds))
  else
    some (s, allItems.filter fun it => decide (it.id ∈ availableIds))

/-- `StateManager.get_random_available_item`.  `random.choice` is modelled
by an arbitrary index `seed` into the available list; on an empty
available list the function returns `None`. -/
def get_random_available_item (s : RawState) (c : Cat) (allItems : List Item)
    (seed : Nat) : Option (RawState × Option Item) :=
  match get_available_items s c allItems with
  | none => none
  | some (s2, available) =>
    if available.isEmpty then some (s2, none)
    else some (s2, available.get? (seed % available.length))

/-- Iterated `get_available_items` calls with an empty catalog, keeping the
mutated state between calls. -/
def iterEmptyCalls (s : RawState) (c : Cat) : Nat → Option RawState
  | 0 => some s
  | k + 1 =>
    match iterEmptyCalls s c k with
    | none => none
    | some s2 => (get_available_items s2 c []).map Prod.fst

/-- The observable file-system effects of a sync operation. -/
inductive SyncEffect where
  | backupLocal
  | writeLocal (s : RawState)

/-- `StateManager.sync_from_gist` (pull mode).  `gist = none` models
`_load_gist_state()` having failed; `localFile = none` models the local
state file being absent (a fresh state stamped `now` is then used).  The
returned list records, in order, the backup and local-file write the
operation performs. -/
def sync_from_gist (gist : Option RawState) (localFile : Option RawState)
    (force dryRun : Bool) (now : String) : Bool × List SyncEffect :=
  match gist with
  | none => (false, [])
  | some g =>
    let l := match localFile with
      | some l0 => l0
      | none => create_initial_state now
    let comparison := compare_states g l
    if comparison.is_identical then (true, [])
    else
      let gist_ts := (g.lastUpdated).getD ""
      let local_ts := (l.lastUpdated).getD ""
      if comparison.has_conflict && !force then (false, [])
      else if pyStrLt gist_ts local_ts && !force then (false, [])
      else if dryRun then (true, [])
      else (true, [SyncEffect.backupLocal, SyncEffect.writeLocal g])

/-- One attempt's outcome inside `_gist_api_call_with_retry`: either
`requests.request` returned a response with a status code (and, for 429,
an optional `Retry-After` header value), or it raised a timeout,
connection, or other request exception. -/
inductive Outcome where
  | status (code : Nat) (retryAfter : Option Nat)
  | timeout
  | connectionError
  | requestError
  deriving DecidableEq, Repr

/-- The typed error taxonomy raised by the retry client
(`GistAuthenticationError`, `GistNotFoundError`, `GistRateLimitError`,
`GistServerError`, `GistNetworkError`, `GistTimeoutError`, `GistAPIError`,
and the unreachable loop-exit `GistAPIError`). -/
inductive GistError where
  | auth (code : Nat)
  | notFound
  | rateLimit (retryAfter : Nat)
  | server (code : Nat)
  | network
  | timedOut
  | api (code : Nat)
  | unexpected
  deriving DecidableEq, Repr

/-- The error class of a `GistError`, payloads erased. -/
inductive GistErrorKind where
  | auth
  | notFound
  | rateLimit
  | server
  | network
  | timedOut
  | api
  | unexpected
  deriving DecidableEq, Repr

def kindOf : GistError → GistErrorKind
  | .auth _ => .auth
  | .notFound => .notFound
  | .rateLimit _ => .rateLimit
  | .server _ => .server
  | .network => .network
  | .timedOut => .timedOut
  | .api _ => .api
  | .unexpected => .unexpected

/-- What a call to the retry client produced: the returned status code or
the raised typed error, together with the sequence of `time.sleep`
durations performed along the way. -/
structure CallTrace where
  result : Except GistError Nat
  sleeps : List Nat
  deriving Repr

/-- The `for attempt in range(GIST_API_MAX_RETRIES)` loop of
`StateManager._gist_api_call_with_retry`, over the list of remaining
attempts' outcomes.  `attempt < GIST_API_MAX_RETRIES - 1` holds exactly
when `rest` is non-empty.  429 sleeps the `Retry-After` value (default:
the current delay) and does not change the delay; 5xx, timeouts and
connection errors sleep the current delay and multiply it by the backoff
factor; 401/403/404, other status codes and other request exceptions
raise immediately. -/
def gistApiLoop : List Outcome → Nat → List Nat → CallTrace
  | [], _, sleeps => { result := .error .unexpected, sleeps := sleeps }
  | o :: rest, delay, sleeps =>
    match o with
    | .status c ra =>
      if c = 200 ∨ c = 201 then { result := .ok c, sleeps := sleeps }
      else if c = 401 ∨ c = 403 then { result := .error (.auth c), sleeps := sleeps }
      else if c = 404 then { result := .error .notFound, sleeps := sleeps }
      else if c = 429 then
        let retryAfterInt := ra.getD delay
        if rest.isEmpty then
          { result := .error (.rateLimit retryAfterInt), sleeps := sleeps }
        else gistApiLoop rest delay (sleeps ++ [retryAfterInt])
      else if 500 ≤ c then
        if rest.isEmpty then { result := .error (.server c), sleeps := sleeps }
        else gistApiLoop rest (delay * GIST_API_RETRY_BACKOFF) (sleeps ++ [delay])
      else { result := .error (.api c), sleeps := sleeps }
    | .timeout =>
      if rest.isEmpty then { result := .error .timedOut, sleeps := sleeps }
      else gistApiLoop rest (delay * GIST_API_RETRY_BACKOFF) (sleeps ++ [delay])
    | .connectionError =>
      if rest.isEmpty then { result := .error .network, sleeps := sleeps }
      else gistApiLoop rest (delay * GIST_API_RETRY_BACKOFF) (sleeps ++ [delay])
    | .requestError => { result := .error .network, sleeps := sleeps }

/-- `StateManager._gist_api_call_with_retry`: run the loop on the outcomes
of attempts `0, 1, ..., GIST_API_MAX_RETRIES - 1` with the initial delay
`GIST_API_RETRY_DELAY` and no sleeps performed yet. -/
def gist_api_call_with_retry (os : Nat → Outcome) : CallTrace :=
  gistApiLoop ((List.range GIST_API_MAX_RETRIES).map os) GIST_API_RETRY_DELAY []

/-- The outcomes on which the loop retries (sleeps and moves to the next
attempt) when attempts remain: 429, 5xx, timeouts, connection errors. -/
def isRetryable : Outcome → Bool
  | .status c _ => decide (c = 429 ∨ 500 ≤ c)
  | .timeout => true
  | .connectionError => true
  | .requestError => false

/-- The immediately-fatal status outcomes and their typed errors: 401/403
raise the authentication error, 404 the not-found error, and any other
status that is neither success (200/201) nor retryable (429/5xx) raises
the generic `GistAPIError`. -/
def fatalStatusError : Outcome → Option GistError
  | .status c _ =>
    if c = 200 ∨ c = 201 then none
    else if c = 401 ∨ c = 403 then some (.auth c)
    else if c = 404 then some .notFound
    else if c = 429 ∨ 500 ≤ c then none
    else some (.api c)
  | _ => none

/-- The typed error class raised when the final attempt ends in the given
retryable outcome. -/
def exhaustKind : Outcome → GistErrorKind
  | .status c _ => if c = 429 then .rateLimit else if 500 ≤ c then .server else .api
  | .timeout => .timedOut
  | .connectionError => .network
  | .requestError => .network

/-- A wall-clock instant as Python's `datetime` exposes it to
`validate_timestamps` (second/microsecond fields are irrelevant here). -/
structure PyDateTime where
  year : Nat
  month : Nat
  day : Nat
  hour : Nat
  minute : Nat
  deriving DecidableEq, Repr

def isLeapYear (y : Nat) : Bool :=
  (y % 4 == 0 && y % 100 != 0) || (y % 400 == 0)

def daysInMonth (y m : Nat) : Nat :=
  if m = 2 then (if isLeapYear y then 29 else 28)
  else if m = 4 ∨ m = 6 ∨ m = 9 ∨ m = 11 then 30
  else 31

/-- Python `datetime.replace(year=y)`: raises `ValueError` (modelled as
`none`) when the existing day does not exist in the new year. -/
def pyReplaceYear (dt : PyDateTime) (y : Nat) : Option PyDateTime :=
  if dt.day ≤ daysInMonth y dt.month then some { dt with year := y } else none

/-- Python `datetime.replace(minute=m)`: raises `ValueError` (modelled as
`none`) unless `0 ≤ m ≤ 59`. -/
def pyReplaceMinute (dt : PyDateTime) (m : Nat) : Option PyDateTime :=
  if m ≤ 59 then some { dt with minute := m } else none

/-- The first two statements of `StateValidator.validate_timestamps`:
`one_year_ago = now.replace(year=now.year - TIMESTAMP_PAST_TOLERANCE_YEARS)`
and
`future_tolerance = now.replace(minute=now.minute + TIMESTAMP_FUTURE_TOLERANCE_MINUTES)`.
These run unconditionally before any check; `none` means the check raised
`ValueError` out of `validate`. -/
def validateTimestampsBounds (now : PyDateTime) :
    Option (PyDateTime × PyDateTime) :=
  (pyReplaceYear now (now.year - TIMESTAMP_PAST_TOLERANCE_YEARS)).bind fun a =>
    (pyReplaceMinute now (now.minute + TIMESTAMP_FUTURE_TOLERANCE_MINUTES)).map fun b =>
      (a, b)

-- Basic facts about the set-difference and set-union list models.

theorem mem_onlyIn {x : String} {l1 l2 : List String} :
    x ∈ onlyIn l1 l2 ↔ x ∈ l1 ∧ x ∉ l2 := by
  simp [onlyIn]

theorem onlyIn_isEmpty {l1 l2 : List String} :
    (onlyIn l1 l2).isEmpty = true ↔ ∀ x ∈ l1, x ∈ l2 := by
  simp [onlyIn, List.isEmpty_iff, List.filter_eq_nil_iff]

theorem mem_setUnion {x : String} {l1 l2 : List String} :
    x ∈ setUnion l1 l2 ↔ x ∈ l1 ∨ x ∈ l2 := by
  simp [setUnion]

/-- Claim C1: for all snapshot states `A` and `B` and every configured
category `c`, the posted set of `merge_states A B` for `c` is the set
union of the two posted sets: an id is in the merge result exactly when
it is in at least one of the inputs. -/
theorem merge_posted_union (s1 s2 : RawState) (prefer_newer : Bool)
    (now : String) (c : Cat) (x : String) :
    x ∈ postedGet (merge_states s1 s2 prefer_newer now) c ↔
      x ∈ postedGet s1 c ∨ x ∈ postedGet s2 c := by
  have h : postedGet (merge_states s1 s2 prefer_newer now) c =
      setUnion (postedGet s1 c) (postedGet s2 c) := rfl
  rw [h]
  exact mem_setUnion

/-- Claim C9: `_migrate_state` is idempotent and purely additive.  The
first conjunct is idempotence; the next four say that every present key
(posted arrays, last-posted records, cycle-count entries, `last_updated`)
keeps exactly its value; the last four say that missing category fields
are filled with the empty/zero defaults: a missing `posted_<c>` becomes
`[]`, a missing `last_<c>_posted` becomes `null`, a category entry
missing from a present `cycle_count` dict becomes `0`, and a missing
`cycle_count` dict becomes a dict with every category's count `0`. -/
theorem migrate_state_spec (s : RawState) :
    migrate_state (migrate_state s) = migrate_state s
  ∧ (∀ c l, s.posted c = some l → (migrate_state s).posted c = some l)
  ∧ (∀ c lp, s.lastPosted c = some lp → (migrate_state s).lastPosted c = some lp)
  ∧ (∀ cc, s.cycleCount = some cc → ∀ c n, cc c = some n →
      ∃ cc2, (migrate_state s).cycleCount = some cc2 ∧ cc2 c = some n)
  ∧ (migrate_state s).lastUpdated = s.lastUpdated
  ∧ (∀ c, s.posted c = none → (migrate_state s).posted c = some [])
  ∧ (∀ c, s.lastPosted c = none → (migrate_state s).lastPosted c = some none)
  ∧ (∀ cc, s.cycleCount = some cc → ∀ c, cc c = none →
      ∃ cc2, (migrate_state s).cycleCount = some cc2 ∧ cc2 c = some 0)
  ∧ (s.cycleCount = none →
      ∃ cc2, (migrate_state s).cycleCount = some cc2 ∧ ∀ c, cc2 c = some 0) := by
  refine ⟨rfl, ?_, ?_, ?_, rfl, ?_, ?_, ?_, ?_⟩
  · intro c l h
    simp [migrate_state, h]
  · intro c lp h
    simp [migrate_state, h]
  · intro cc h c n hn
    refine ⟨_, rfl, ?_⟩
    simp [h, hn]
  · intro c h
    simp [migrate_state, h]
  · intro c h
    simp [migrate_state, h]
  · intro cc h c hn
    refine ⟨_, rfl, ?_⟩
    simp [h, hn]
  · intro h
    refine ⟨_, rfl, ?_⟩
    intro c
    simp [h]

/-- Concrete input for `migrate_state_spec`'s witness. -/
def migrateW : RawState :=
  { posted := fun c => if c = Cat.spells then some ["a"] else none
    lastPosted := fun _ => none
    cycleCount := none
    lastUpdated := none }

theorem migrate_state_spec_witness :
    migrateW.posted Cat.spells = some ["a"]
  ∧ (migrate_state migrateW).posted Cat.spells = some ["a"]
  ∧ ∃ cc2, (migrate_state migrateW).cycleCount = some cc2 ∧ ∀ c, cc2 c = some 0 :=
  ⟨rfl, (migrate_state_spec migrateW).2.1 Cat.spells ["a"] rfl,
   (migrate_state_spec migrateW).2.2.2.2.2.2.2.2 rfl⟩

/-- Claim C4 (code bug): the two bound computations at the top of
`StateValidator.validate_timestamps` raise `ValueError` out of
`validate` whenever the current UTC minute is 55 or later, because
`now.replace(minute=now.minute + 5)` produces a minute outside `0..59`.
At `2026-10-12T23:57Z` the computation fails (`none`), so `validate`
propagates an exception instead of returning a report. -/
theorem validate_timestamps_minute_overflow :
    validateTimestampsBounds
        { year := 2026, month := 10, day := 12, hour := 23, minute := 57 } = none := by
  decide

/-- Merge input exhibiting the `ts1`/`ts2` leak: newer top-level
timestamp, but an old `last_spell_posted` timestamp. -/
def mergeTsA : RawState :=
  { posted := fun _ => none
    lastPosted := fun c =>
      if c = Cat.spells then
        some (some { id := "a1", timestamp := "2020-01-01T00:00:00Z" })
      else none
    cycleCount := none
    lastUpdated := some "2025-01-02T00:00:00Z" }

/-- Merge input exhibiting the `ts1`/`ts2` leak: older top-level
timestamp and an even older `last_spell_posted` timestamp. -/
def mergeTsB : RawState :=
  { posted := fun _ => none
    lastPosted := fun c =>
      if c = Cat.spells then
        some (some { id := "b1", timestamp := "2019-01-01T00:00:00Z" })
      else none
    cycleCount := none
    lastUpdated := some "2025-01-01T00:00:00Z" }

/-- Claim C2 (code bug): `merge_states` with `prefer_newer` does not
return the maximum of the two top-level `last_updated` values.  The
`last_*_posted` loop reuses the variables `ts1`/`ts2`, so the final
`merged['last_updated']` is computed from the last pair of last-posted
timestamps instead: here it is `2020-01-01`, not the expected maximum
`2025-01-02` (note the unused `newer_state` variable in the source,
evidence that the top-level timestamps were intended). -/
theorem merge_last_updated_not_max :
    (merge_states mergeTsA mergeTsB true "2026-01-01T00:00:00Z").lastUpdated
        = some "2020-01-01T00:00:00Z"
  ∧ pyMaxStr "2025-01-02T00:00:00Z" "2025-01-01T00:00:00Z"
        = "2025-01-02T00:00:00Z"
  ∧ (merge_states mergeTsA mergeTsB true "2026-01-01T00:00:00Z").lastUpdated
        ≠ some (pyMaxStr "2025-01-02T00:00:00Z" "2025-01-01T00:00:00Z") := by
  refine ⟨?_, ?_, ?_⟩ <;> decide

theorem onlyIn_isEmpty_false {l1 l2 : List String} :
    (onlyIn l1 l2).isEmpty = false ↔ ∃ x ∈ l1, x ∉ l2 := by
  rw [Bool.eq_false_iff, Ne, onlyIn_isEmpty]
  push_neg
  exact Iff.rfl

/-- A state carrying a `last_updated` value; posted sets and cycle counts
empty. -/
def identA : RawState :=
  { posted := fun _ => none
    lastPosted := fun _ => none
    cycleCount := none
    lastUpdated := some "2025-01-01T00:00:00Z" }

/-- The same state with the `last_updated` key absent. -/
def identB : RawState :=
  { posted := fun _ => none
    lastPosted := fun _ => none
    cycleCount := none
    lastUpdated := none }

/-- Claim C6 counterexample: `compare_states` reports `is_identical =
True` for two states whose `last_updated` fields do not match, because
the `if ts1 and ts2` guard skips the timestamp comparison when either
side's `last_updated` is absent (or empty). -/
theorem compare_identical_despite_ts :
    (compare_states identA identB).is_identical = true
  ∧ identA.lastUpdated ≠ identB.lastUpdated := by
  refine ⟨?_, ?_⟩ <;> decide

/-- Claim C6 (amended): `is_identical = True` only when no category has a
posted-set difference, no category has a cycle-count difference (with
absent counts read as 0), and, whenever both snapshots carry a non-empty
`last_updated` string, the two strings are equal — a missing or empty
`last_updated` on either side is not treated as a difference. -/
theorem compare_is_identical_necessary (s1 s2 : RawState)
    (h : (compare_states s1 s2).is_identical = true) :
    (∀ c x, x ∈ postedGet s1 c ↔ x ∈ postedGet s2 c)
  ∧ (∀ c, cycleGet s1 c = cycleGet s2 c)
  ∧ (∀ a b, s1.lastUpdated = some a → s2.lastUpdated = some b →
      a ≠ "" → b ≠ "" → a = b) := by
  simp only [compare_states, Bool.and_eq_true, Bool.not_eq_true'] at h
  obtain ⟨⟨hts, hp⟩, hc⟩ := h
  refine ⟨?_, ?_, ?_⟩
  · intro c x
    have hcat := (List.any_eq_false.mp hp) c (mem_catList c)
    simp only [Bool.or_eq_true, Bool.not_eq_true', not_or] at hcat
    obtain ⟨h1, h2⟩ := hcat
    rw [Bool.not_eq_false] at h1 h2
    constructor
    · intro hx
      exact (onlyIn_isEmpty.mp h1) x hx
    · intro hx
      exact (onlyIn_isEmpty.mp h2) x hx
  · intro c
    have hcat := (List.any_eq_false.mp hc) c (mem_catList c)
    simpa using hcat
  · intro a b ha hb hane hbne
    unfold tsMismatch at hts
    rw [ha, hb] at hts
    by_contra hab
    have hts2 : (a != "" && b != "" && a != b) = false := hts
    have htrue : (a != "" && b != "" && a != b) = true := by
      simp [bne_iff_ne, hane, hbne, hab]
    rw [hts2] at htrue
    exact Bool.false_ne_true htrue

/-- First input for `compare_is_identical_necessary`'s witness: a
duplicate id in the posted list and no `cycle_count` dict. -/
def identW1 : RawState :=
  { posted := fun c => if c = Cat.spells then some ["a", "a"] else none
    lastPosted := fun _ => none
    cycleCount := none
    lastUpdated := some "2025-01-01T00:00:00Z" }

/-- Second input for `compare_is_identical_necessary`'s witness: same
posted set without the duplicate, explicit zero cycle counts. -/
def identW2 : RawState :=
  { posted := fun c => if c = Cat.spells then some ["a"] else none
    lastPosted := fun _ => none
    cycleCount := some fun _ => some 0
    lastUpdated := some "2025-01-01T00:00:00Z" }

theorem compare_is_identical_necessary_witness :
    ("a" ∈ postedGet identW1 Cat.spells ↔ "a" ∈ postedGet identW2 Cat.spells)
  ∧ cycleGet identW1 Cat.spells = cycleGet identW2 Cat.spells :=
  ⟨(compare_is_identical_necessary identW1 identW2 (by decide)).1 Cat.spells "a",
   (compare_is_identical_necessary identW1 identW2 (by decide)).2.1 Cat.spells⟩

/-- Claim C5: `compare_states` reports `has_conflict = True` exactly when
some category has an id only in state1's posted set and an id only in
state2's; in particular, when in every category one posted set contains
the other, there is no conflict. -/
theorem compare_has_conflict_iff (s1 s2 : RawState) :
    ((compare_states s1 s2).has_conflict = true ↔
      ∃ c, (∃ x ∈ postedGet s1 c, x ∉ postedGet s2 c) ∧
           (∃ y ∈ postedGet s2 c, y ∉ postedGet s1 c))
  ∧ ((∀ c, (∀ x ∈ postedGet s1 c, x ∈ postedGet s2 c) ∨
           (∀ y ∈ postedGet s2 c, y ∈ postedGet s1 c)) →
      (compare_states s1 s2).has_conflict = false) := by
  have hiff : (compare_states s1 s2).has_conflict = true ↔
      ∃ c, (∃ x ∈ postedGet s1 c, x ∉ postedGet s2 c) ∧
           (∃ y ∈ postedGet s2 c, y ∉ postedGet s1 c) := by
    have hunfold : (compare_states s1 s2).has_conflict =
        catList.any fun c =>
          !(onlyIn (postedGet s1 c) (postedGet s2 c)).isEmpty &&
          !(onlyIn (postedGet s2 c) (postedGet s1 c)).isEmpty := rfl
    rw [hunfold, List.any_eq_true]
    constructor
    · rintro ⟨c, _, hcond⟩
      rw [Bool.and_eq_true, Bool.not_eq_true', Bool.not_eq_true'] at hcond
      exact ⟨c, onlyIn_isEmpty_false.mp hcond.1, onlyIn_isEmpty_false.mp hcond.2⟩
    · rintro ⟨c, h1, h2⟩
      refine ⟨c, mem_catList c, ?_⟩
      rw [Bool.and_eq_true, Bool.not_eq_true', Bool.not_eq_true']
      exact ⟨onlyIn_isEmpty_false.mpr h1, onlyIn_isEmpty_false.mpr h2⟩
  refine ⟨hiff, ?_⟩
  intro hsub
  rw [Bool.eq_false_iff, Ne, hiff]
  rintro ⟨c, ⟨x, hx1, hx2⟩, ⟨y, hy1, hy2⟩⟩
  rcases hsub c with hs | hs
  · exact hx2 (hs x hx1)
  · exact hy2 (hs y hy1)

/-- Input for `compare_has_conflict_iff`'s witness: id `x` only here. -/
def conflictW1 : RawState :=
  { posted := fun c => if c = Cat.potions then some ["x"] else none
    lastPosted := fun _ => none
    cycleCount := none
    lastUpdated := none }

/-- Input for `compare_has_conflict_iff`'s witness: id `y` only here. -/
def conflictW2 : RawState :=
  { posted := fun c => if c = Cat.potions then some ["y"] else none
    lastPosted := fun _ => none
    cycleCount := none
    lastUpdated := none }

theorem compare_has_conflict_iff_witness :
    (compare_states conflictW1 conflictW2).has_conflict = true :=
  (compare_has_conflict_iff conflictW1 conflictW2).1.mpr
    ⟨Cat.potions, ⟨"x", by decide, by decide⟩, ⟨"y", by decide, by decide⟩⟩

/-- Claim C8: in pull mode with `force` unset, when the remote snapshot's
`last_updated` is older (string-wise) than the local one and the two
snapshots are not identical, `sync_from_gist` returns failure and performs
no backup and no write of the local file (the effect list is empty: the
conflict guard or the stale-overwrite guard returns `False` before any
file operation, whatever `dry_run` is). -/
theorem sync_from_gist_stale_guard (g l : RawState) (dryRun : Bool) (now : String)
    (hstale : pyStrLt ((g.lastUpdated).getD "") ((l.lastUpdated).getD "") = true)
    (hdiff : (compare_states g l).is_identical = false) :
    sync_from_gist (some g) (some l) false dryRun now = (false, []) := by
  cases hc : (compare_states g l).has_conflict
  · simp [sync_from_gist, hdiff, hc, hstale]
  · simp [sync_from_gist, hdiff, hc]

/-- Remote-side input for `sync_from_gist_stale_guard`'s witness. -/
def staleGist : RawState :=
  { posted := fun _ => none
    lastPosted := fun _ => none
    cycleCount := none
    lastUpdated := some "2024-01-01T00:00:00Z" }

/-- Local-side input for `sync_from_gist_stale_guard`'s witness. -/
def staleLocal : RawState :=
  { posted := fun _ => none
    lastPosted := fun _ => none
    cycleCount := none
    lastUpdated := some "2025-06-01T00:00:00Z" }

theorem sync_from_gist_stale_guard_witness :
    sync_from_gist (some staleGist) (some staleLocal) false false
        "2026-01-01T00:00:00Z" = (false, []) :=
  sync_from_gist_stale_guard staleGist staleLocal false "2026-01-01T00:00:00Z"
    (by decide) (by decide)

theorem gai_reset (s : RawState) (c : Cat) (allItems : List Item)
    (cc : Cat → Option Int) (n : Int)
    (hall : ∀ it ∈ allItems, it.id ∈ postedGet s c)
    (hcc : s.cycleCount = some cc) (hn : cc c = some n) :
    get_available_items s c allItems = some (cycleResetState s c cc n, allItems) := by
  have hempty : (onlyIn (allItems.map Item.id) (postedGet s c)).isEmpty = true := by
    rw [onlyIn_isEmpty]
    intro x hx
    obtain ⟨it, hit, rfl⟩ := List.mem_map.mp hx
    exact hall it hit
  have hfilter :
      (allItems.filter fun it => decide (it.id ∈ allItems.map Item.id)) = allItems := by
    apply List.filter_eq_self.mpr
    intro it hit
    simp only [decide_eq_true_eq]
    exact List.mem_map_of_mem _ hit
  simp only [get_available_items, hempty, hcc, hn, hfilter, if_true]

theorem gai_nonreset (s : RawState) (c : Cat) (allItems : List Item)
    (h : ∃ it ∈ allItems, it.id ∉ postedGet s c) :
    get_available_items s c allItems =
      some (s, allItems.filter fun it => decide (it.id ∉ postedGet s c)) := by
  obtain ⟨it0, hit0, hnp⟩ := h
  have hne : (onlyIn (allItems.map Item.id) (postedGet s c)).isEmpty = false := by
    rw [onlyIn_isEmpty_false]
    exact ⟨it0.id, List.mem_map_of_mem _ hit0, hnp⟩
  have hfilter :
      (allItems.filter fun it =>
        decide (it.id ∈ onlyIn (allItems.map Item.id) (postedGet s c)))
      = allItems.filter fun it => decide (it.id ∉ postedGet s c) := by
    apply List.filter_congr
    intro it hit
    have hmem : it.id ∈ allItems.map Item.id := List.mem_map_of_mem _ hit
    by_cases hp : it.id ∈ postedGet s c
    · simp [mem_onlyIn, hp]
    · simp [mem_onlyIn, hp, hmem]
  simp only [get_available_items, hne, hfilter, Bool.false_eq_true, if_false]

/-- Claim C3: on a catalog whose every id is already posted,
`get_available_items` clears the category's posted set, increments its
cycle count by exactly one (`cycleResetState`) and returns the full
catalog; when some catalog id is unposted it returns exactly the
unposted items and leaves the state untouched. -/
theorem get_available_items_spec (s : RawState) (c : Cat) (allItems : List Item)
    (_hne : allItems ≠ []) :
    ((∀ it ∈ allItems, it.id ∈ postedGet s c) →
      ∀ cc n, s.cycleCount = some cc → cc c = some n →
        get_available_items s c allItems = some (cycleResetState s c cc n, allItems))
  ∧ ((∃ it ∈ allItems, it.id ∉ postedGet s c) →
      get_available_items s c allItems =
        some (s, allItems.filter fun it => decide (it.id ∉ postedGet s c))) :=
  ⟨fun hall cc n hcc hn => gai_reset s c allItems cc n hall hcc hn,
   fun h => gai_nonreset s c allItems h⟩

/-- The cycle-count dict of `gaiW`. -/
def gaiWcc : Cat → Option Int := fun _ => some 2

/-- Concrete input for `get_available_items_spec`'s witness: both catalog
ids already posted. -/
def gaiW : RawState :=
  { posted := fun c => if c = Cat.spells then some ["a", "b"] else none
    lastPosted := fun _ => none
    cycleCount := some gaiWcc
    lastUpdated := none }

theorem get_available_items_spec_witness :
    get_available_items gaiW Cat.spells [{ id := "a" }, { id := "b" }] =
      some (cycleResetState gaiW Cat.spells gaiWcc 2, [{ id := "a" }, { id := "b" }]) :=
  (get_available_items_spec gaiW Cat.spells [{ id := "a" }, { id := "b" }]
      (by decide)).1 (by decide) gaiWcc 2 rfl rfl

/-- Claim C10: with an empty catalog, `get_available_items` always takes
the reset branch — it returns the empty list yet still increments the
category's cycle count — so iterating it grows the cycle count without
bound, and `get_random_available_item` returns no item while performing
the same increment as a side effect. -/
theorem empty_catalog_cycle_spec (s : RawState) (cc : Cat → Option Int)
    (c : Cat) (n : Int) (hcc : s.cycleCount = some cc) (hn : cc c = some n) :
    get_available_items s c [] = some (cycleResetState s c cc n, [])
  ∧ (∀ seed, get_random_available_item s c [] seed =
      some (cycleResetState s c cc n, none))
  ∧ (∀ k, ∃ s2 cc2, iterEmptyCalls s c k = some s2 ∧
      s2.cycleCount = some cc2 ∧ cc2 c = some (n + k)) := by
  have hbase : get_available_items s c [] = some (cycleResetState s c cc n, []) :=
    gai_reset s c [] cc n (fun it h => absurd h (List.not_mem_nil it)) hcc hn
  refine ⟨hbase, ?_, ?_⟩
  · intro seed
    simp [get_random_available_item, hbase]
  · intro k
    induction k with
    | zero =>
      refine ⟨s, cc, rfl, hcc, ?_⟩
      simpa using hn
    | succ k ih =>
      obtain ⟨s2, cc2, hiter, hcc2, hn2⟩ := ih
      have hgai := gai_reset s2 c [] cc2 (n + (k : Int))
        (fun it h => absurd h (List.not_mem_nil it)) hcc2 hn2
      refine ⟨cycleResetState s2 c cc2 (n + (k : Int)),
              fun c2 => if c2 = c then some (n + (k : Int) + 1) else cc2 c2,
              ?_, rfl, ?_⟩
      · simp [iterEmptyCalls, hiter, hgai]
      · have : n + ((k : Int) + 1) = n + (k : Int) + 1 := by ring
        simp [this]

/-- The cycle-count dict of `emptyCatW`. -/
def emptyCatWcc : Cat → Option Int := fun _ => some 5

/-- Concrete input for `empty_catalog_cycle_spec`'s witness. -/
def emptyCatW : RawState :=
  { posted := fun _ => none
    lastPosted := fun _ => none
    cycleCount := some emptyCatWcc
    lastUpdated := none }

theorem empty_catalog_cycle_spec_witness :
    get_available_items emptyCatW Cat.creatures [] =
      some (cycleResetState emptyCatW Cat.creatures emptyCatWcc 5, []) :=
  (empty_catalog_cycle_spec emptyCatW emptyCatWcc Cat.creatures 5 rfl rfl).1

theorem gistApiLoop_fatal (o : Outcome) (rest : List Outcome) (d : Nat)
    (sl : List Nat) (e : GistError) (h : fatalStatusError o = some e) :
    gistApiLoop (o :: rest) d sl = { result := .error e, sleeps := sl } := by
  cases o with
  | status c ra =>
    simp only [fatalStatusError] at h
    simp only [gistApiLoop]
    split_ifs at h ⊢ <;> simp_all
  | timeout => simp [fatalStatusError] at h
  | connectionError => simp [fatalStatusError] at h
  | requestError => simp [fatalStatusError] at h

theorem gistApiLoop_retry_step (o : Outcome) (rest : List Outcome) (d : Nat)
    (sl : List Nat) (hr : isRetryable o = true) (hrest : rest ≠ []) :
    ∃ slp d2, gistApiLoop (o :: rest) d sl = gistApiLoop rest d2 (sl ++ [slp]) := by
  have hre : rest.isEmpty = false := by
    rw [Bool.eq_false_iff, Ne, List.isEmpty_iff]
    exact hrest
  cases o with
  | status c ra =>
    simp only [isRetryable, decide_eq_true_eq] at hr
    rcases hr with h429 | h5xx
    · subst h429
      exact ⟨ra.getD d, d, by simp [gistApiLoop, hre]⟩
    · have h1 : ¬(c = 200 ∨ c = 201) := by omega
      have h2 : ¬(c = 401 ∨ c = 403) := by omega
      have h3 : ¬c = 404 := by omega
      have h4 : ¬c = 429 := by omega
      exact ⟨d, d * GIST_API_RETRY_BACKOFF,
             by simp [gistApiLoop, hre, h1, h2, h3, h4, h5xx]⟩
  | timeout => exact ⟨d, d * GIST_API_RETRY_BACKOFF, by simp [gistApiLoop, hre]⟩
  | connectionError =>
    exact ⟨d, d * GIST_API_RETRY_BACKOFF, by simp [gistApiLoop, hre]⟩
  | requestError => simp [isRetryable] at hr

theorem gistApiLoop_exhaust (o : Outcome) (d : Nat) (sl : List Nat)
    (hr : isRetryable o = true) :
    ∃ e, gistApiLoop [o] d sl = { result := .error e, sleeps := sl }
      ∧ kindOf e = exhaustKind o := by
  cases o with
  | status c ra =>
    simp only [isRetryable, decide_eq_true_eq] at hr
    rcases hr with h429 | h5xx
    · subst h429
      exact ⟨.rateLimit (ra.getD d), by simp [gistApiLoop], by simp [kindOf, exhaustKind]⟩
    · have h1 : ¬(c = 200 ∨ c = 201) := by omega
      have h2 : ¬(c = 401 ∨ c = 403) := by omega
      have h3 : ¬c = 404 := by omega
      have h4 : ¬c = 429 := by omega
      exact ⟨.server c, by simp [gistApiLoop, h1, h2, h3, h4, h5xx],
             by simp [kindOf, exhaustKind, h4, h5xx]⟩
  | timeout => exact ⟨.timedOut, by simp [gistApiLoop], rfl⟩
  | connectionError => exact ⟨.network, by simp [gistApiLoop], rfl⟩
  | requestError => simp [isRetryable] at hr

/-- Claim C7: the retry-wrapped client raises the typed authentication
error on 401/403, the not-found error on 404, and the generic API error
on any other unclassified status, each on the attempt that produced it
and with no sleep for that attempt (the sleep count stays at one per
earlier retried attempt); and when every one of the
`GIST_API_MAX_RETRIES` attempts ends in a retryable failure (429, 5xx,
timeout, connection error), it raises the typed error corresponding to
the final attempt's failure instead of returning a response. -/
theorem gist_retry_spec (os : Nat → Outcome) :
    (∀ i, i < GIST_API_MAX_RETRIES → (∀ j, j < i → isRetryable (os j) = true) →
      ∀ e, fatalStatusError (os i) = some e →
        (gist_api_call_with_retry os).result = .error e ∧
        (gist_api_call_with_retry os).sleeps.length = i)
  ∧ ((∀ j, j < GIST_API_MAX_RETRIES → isRetryable (os j) = true) →
      ∃ e, (gist_api_call_with_retry os).result = .error e ∧
        kindOf e = exhaustKind (os (GIST_API_MAX_RETRIES - 1))) := by
  have hcall : gist_api_call_with_retry os =
      gistApiLoop [os 0, os 1, os 2] GIST_API_RETRY_DELAY [] := rfl
  constructor
  · intro i hi hpre e he
    have hi3 : i < 3 := hi
    interval_cases i
    · rw [hcall, gistApiLoop_fatal _ _ _ _ _ he]
      exact ⟨rfl, rfl⟩
    · obtain ⟨s0, d0, h0⟩ := gistApiLoop_retry_step (os 0) [os 1, os 2]
        GIST_API_RETRY_DELAY [] (hpre 0 (by omega)) (by simp)
      rw [hcall, h0, gistApiLoop_fatal _ _ _ _ _ he]
      exact ⟨rfl, rfl⟩
    · obtain ⟨s0, d0, h0⟩ := gistApiLoop_retry_step (os 0) [os 1, os 2]
        GIST_API_RETRY_DELAY [] (hpre 0 (by omega)) (by simp)
      obtain ⟨s1, d1, h1⟩ := gistApiLoop_retry_step (os 1) [os 2]
        d0 ([] ++ [s0]) (hpre 1 (by omega)) (by simp)
      rw [hcall, h0, h1, gistApiLoop_fatal _ _ _ _ _ he]
      exact ⟨rfl, rfl⟩
  · intro hall
    obtain ⟨s0, d0, h0⟩ := gistApiLoop_retry_step (os 0) [os 1, os 2]
      GIST_API_RETRY_DELAY [] (hall 0 (by decide)) (by simp)
    obtain ⟨s1, d1, h1⟩ := gistApiLoop_retry_step (os 1) [os 2]
      d0 ([] ++ [s0]) (hall 1 (by decide)) (by simp)
    obtain ⟨e, he, hk⟩ := gistApiLoop_exhaust (os 2) d1 (([] ++ [s0]) ++ [s1])
      (hall 2 (by decide))
    refine ⟨e, ?_, hk⟩
    rw [hcall, h0, h1, he]

/-- Concrete outcome sequence for `gist_retry_spec`'s witness: one 503
(retried with a sleep), then a 401 (fatal, raised at once). -/
def retryW : Nat → Outcome := fun n =>
  if n = 0 then Outcome.status 503 none else Outcome.status 401 none

theorem gist_retry_spec_witness :
    (gist_api_call_with_retry retryW).result = .error (.auth 401)
  ∧ (gist_api_call_with_retry retryW).sleeps.length = 1 :=
  (gist_retry_spec retryW).1 1 (by decide)
    (fun j hj => by
      have hj0 : j = 0 := by omega
      subst hj0
      decide)
    (.auth 401) (by decide)
